import Mathlib

/-!
Shallow embedding of the collaborator/sharing core of the note-taking
application: the five registry operations of `src/lib/collaborators.ts`
(inviteCollaborator, generateShareLink, validateShareToken,
removeCollaborator, updateCollaboratorPermission) and the entry-delete
row-level-security policy of the migration
`supabase/migrations/20250130053659_bold_lab.sql`.

The backing store is modelled as an association list from note id to the
note's columns that these operations read or write (`user_id` owner,
`collaborators` jsonb field, `sharing_token`).  The `collaborators`
column is modelled by `CollabField`: `null` for a falsy stored value
(the code's `noteData.collaborators ? JSON.parse(...) : []` guard maps
it to the empty list), `malformed` for a stored value on which
`JSON.parse` throws (the surrounding try/catch converts the exception to
the failure return), and `stored l` for a well-formed serialized list
parsing to `l`.  Nondeterministic inputs of the code
(`crypto.randomUUID()`, `new Date().toISOString()`,
`window.location.origin`) are passed as explicit parameters, and
underlying storage failures are injected through a `Faults` record:
`fetchFail` makes the select return an error, `writeFail` makes the
update return an error.
-/

namespace Collab

/-- The `permission` enum of a collaborator entry: `'view' | 'edit'`. -/
inductive Permission where
  | view
  | edit
  deriving DecidableEq

/-- The `Collaborator` interface of `collaborators.ts`: optional fields
are `Option`s (`undefined` is `none`; `JSON.stringify` omits absent
fields, so a round-trip through the store preserves `none`). -/
structure Collaborator where
  user_id : String
  email : Option String
  display_name : Option String
  permission : Permission
  joined_at : String
  deriving DecidableEq

/-- The stored `collaborators` column of a note. -/
inductive CollabField where
  | null
  | malformed
  | stored (l : List Collaborator)
  deriving DecidableEq

/-- The columns of a `notes` row that the registry operations and the
entry-delete policy read or write: `user_id` (the owner), the
`collaborators` field and the `sharing_token`.  Columns the operations
never touch (title, timestamps) are omitted. -/
structure Note where
  user_id : String
  collaborators : CollabField
  sharing_token : Option String
  deriving DecidableEq

/-- The notes table, keyed by note id. -/
abbrev DB := List (String × Note)

/-- Injected storage failures for one operation: the select errors, or
the update errors. -/
structure Faults where
  fetchFail : Bool
  writeFail : Bool
  deriving DecidableEq

/-- The fault schedule on which the underlying store behaves normally. -/
def nofault : Faults := ⟨false, false⟩

/-- `select ... .eq('id', id).single()` without injected faults: the
first row with the given id, if any. -/
def findNote : DB → String → Option Note
  | [], _ => none
  | p :: rest, id => if p.1 = id then some p.2 else findNote rest id

/-- `select ... .eq('id', id).single()` under the fault schedule:
`none` models the `{ error }` outcome (injected failure or no row). -/
def fetchNote (db : DB) (f : Faults) (id : String) : Option Note :=
  if f.fetchFail then none else findNote db id

/-- `update(fields).eq('id', id)`: rewrite every row whose id matches;
matching zero rows is not an error. -/
def updateRows (db : DB) (id : String) (g : Note → Note) : DB :=
  db.map (fun p => if p.1 = id then (p.1, g p.2) else p)

/-- The parse of the fetched `collaborators` value as the operations
perform it: a falsy stored value yields `[]` without parsing, a
malformed value makes `JSON.parse` throw (`Except.error`), a well-formed
value parses to its list. -/
def parseField : CollabField → Except Unit (List Collaborator)
  | .null => .ok []
  | .malformed => .error ()
  | .stored l => .ok l

/-- The `update({ collaborators: JSON.stringify(list) }).eq('id', id)`
write: `none` models the `{ error: updateError }` outcome. -/
def writeCollaborators (db : DB) (f : Faults) (id : String)
    (l : List Collaborator) : Option DB :=
  if f.writeFail then none
  else some (updateRows db id (fun n => { n with collaborators := .stored l }))

/-- The `Omit<Collaborator, 'joined_at'>` argument of
`inviteCollaborator`. -/
structure InviteInput where
  user_id : String
  email : Option String
  display_name : Option String
  permission : Permission
  deriving DecidableEq

/-- `inviteCollaborator(noteId, collaborator)`: fetch the note (error →
`false`), parse the stored list (throw → caught → `false`), refuse if
some entry has the same `user_id` or the same `email` (plain `===` on
the possibly-absent emails), otherwise append the entry stamped with the
current time and write the whole list back (write error → `false`).
Returns the boolean result and the resulting store. -/
def inviteCollaborator (db : DB) (f : Faults) (noteId : String)
    (collab : InviteInput) (now : String) : Bool × DB :=
  match fetchNote db f noteId with
  | none => (false, db)
  | some noteData =>
    match parseField noteData.collaborators with
    | .error _ => (false, db)
    | .ok existing =>
      if existing.any (fun c =>
          decide (c.user_id = collab.user_id) || decide (c.email = collab.email)) then
        (false, db)
      else
        let newCollaborator : Collaborator :=
          { user_id := collab.user_id, email := collab.email,
            display_name := collab.display_name,
            permission := collab.permission, joined_at := now }
        match writeCollaborators db f noteId (existing ++ [newCollaborator]) with
        | none => (false, db)
        | some db' => (true, db')

/-- The result record of `generateShareLink`:
`{ url: string | null; error: Error | null }`, with the error collapsed
to its presence. -/
structure ShareLinkResult where
  url : Option String
  error : Bool
  deriving DecidableEq

/-- `generateShareLink(noteId)`: generate a fresh token (passed in as
`token`), overwrite the note's `sharing_token` — matching zero rows is
not an error — and return the URL
`` `${origin}/share/${noteId}?token=${token}` ``.  A write error is
thrown and caught, yielding `{ url: null, error }` with the store
unchanged. -/
def generateShareLink (db : DB) (f : Faults) (noteId token origin : String) :
    ShareLinkResult × DB :=
  if f.writeFail then ({ url := none, error := true }, db)
  else
    ({ url := some (origin ++ "/share/" ++ noteId ++ "?token=" ++ token),
       error := false },
     updateRows db noteId (fun n => { n with sharing_token := some token }))

/-- `validateShareToken(noteId, token)`: fetch the note's stored token
(an error is thrown and caught, yielding `false`) and compare it to the
supplied token with `===`; a `null` stored token equals no string. -/
def validateShareToken (db : DB) (f : Faults) (noteId token : String) : Bool :=
  match fetchNote db f noteId with
  | none => false
  | some n => decide (n.sharing_token = some token)

/-- `removeCollaborator(noteId, userId)`: fetch (error → `false`), parse
(throw → caught → `false`), filter out entries with the given `user_id`,
write the whole list back (write error → `false`). -/
def removeCollaborator (db : DB) (f : Faults) (noteId userId : String) :
    Bool × DB :=
  match fetchNote db f noteId with
  | none => (false, db)
  | some noteData =>
    match parseField noteData.collaborators with
    | .error _ => (false, db)
    | .ok existing =>
      match writeCollaborators db f noteId
          (existing.filter (fun c => !decide (c.user_id = userId))) with
      | none => (false, db)
      | some db' => (true, db')

/-- `updateCollaboratorPermission(noteId, userId, permission)`: fetch
(error → `false`), parse (throw → caught → `false`), map the matching
entries to `{ ...c, permission }` leaving the rest unchanged, write the
whole list back (write error → `false`). -/
def updateCollaboratorPermission (db : DB) (f : Faults) (noteId userId : String)
    (p : Permission) : Bool × DB :=
  match fetchNote db f noteId with
  | none => (false, db)
  | some noteData =>
    match parseField noteData.collaborators with
    | .error _ => (false, db)
    | .ok existing =>
      match writeCollaborators db f noteId
          (existing.map (fun c =>
            if c.user_id = userId then { c with permission := p } else c)) with
      | none => (false, db)
      | some db' => (true, db')

/-- The RLS policy "Users can delete entries of their notes": the delete
is allowed exactly when a notes row with the entry's `note_id` exists
and its `user_id` equals `auth.uid()`. -/
def entryDeleteAllowed (db : DB) (noteId caller : String) : Bool :=
  match findNote db noteId with
  | none => false
  | some n => decide (n.user_id = caller)

/-- The collaborator-with-edit-permission test the update policies use:
`EXISTS (SELECT 1 FROM jsonb_array_elements(collaborators) c WHERE
c->>'user_id' = uid AND c->>'permission' = 'edit')`. -/
def hasEditCollaborator (n : Note) (u : String) : Bool :=
  match n.collaborators with
  | .stored l =>
      l.any (fun c => decide (c.user_id = u) && decide (c.permission = .edit))
  | _ => false

/-! Helper lemmas about the store. -/

theorem findNote_updateRows_self (db : DB) (id : String) (g : Note → Note) :
    findNote (updateRows db id g) id = (findNote db id).map g := by
  induction db with
  | nil => rfl
  | cons p rest ih =>
    obtain ⟨k, v⟩ := p
    by_cases h : k = id
    · simp only [updateRows, List.map_cons] at *
      rw [if_pos h]
      simp only [findNote, if_pos h, Option.map_some']
    · simp only [updateRows, List.map_cons] at *
      rw [if_neg h]
      simp only [findNote, if_neg h]
      exact ih

theorem findNote_updateRows_ne (db : DB) (id i : String) (g : Note → Note)
    (h : i ≠ id) : findNote (updateRows db id g) i = findNote db i := by
  induction db with
  | nil => rfl
  | cons p rest ih =>
    obtain ⟨k, v⟩ := p
    simp only [updateRows, List.map_cons] at *
    by_cases hk : k = id
    · have hki : ¬ (k = i) := by rw [hk]; exact fun hc => h hc.symm
      rw [if_pos hk]
      simp only [findNote, if_neg hki]
      exact ih
    · rw [if_neg hk]
      by_cases hki : k = i
      · simp only [findNote, if_pos hki]
      · simp only [findNote, if_neg hki]
        exact ih

theorem findNote_mem (db : DB) (id : String) (n : Note)
    (h : findNote db id = some n) : (id, n) ∈ db := by
  induction db with
  | nil => simp [findNote] at h
  | cons p rest ih =>
    obtain ⟨k, v⟩ := p
    by_cases hk : k = id
    · simp only [findNote, if_pos hk] at h
      subst hk
      injection h with h
      subst h
      exact List.mem_cons_self _ _
    · simp only [findNote, if_neg hk] at h
      exact List.mem_cons_of_mem _ (ih h)

theorem mem_eq_of_findNote (db : DB) (id : String) (n m : Note)
    (hnd : (db.map Prod.fst).Nodup)
    (hf : findNote db id = some n) (hm : (id, m) ∈ db) : m = n := by
  induction db with
  | nil => simp at hm
  | cons p rest ih =>
    obtain ⟨k, v⟩ := p
    rw [List.map_cons, List.nodup_cons] at hnd
    rcases List.mem_cons.mp hm with hh | ht
    · injection hh with h1 h2
      subst h1
      subst h2
      simp [findNote] at hf
      exact hf
    · by_cases hk : k = id
      · have hmem : id ∈ rest.map Prod.fst := List.mem_map_of_mem Prod.fst ht
        rw [hk] at hnd
        exact absurd hmem hnd.1
      · simp only [findNote, if_neg hk] at hf
        exact ih hnd.2 hf ht

theorem updateRows_eq_self (db : DB) (id : String) (g : Note → Note)
    (h : ∀ m : Note, (id, m) ∈ db → g m = m) : updateRows db id g = db := by
  induction db with
  | nil => rfl
  | cons p rest ih =>
    obtain ⟨k, v⟩ := p
    simp only [updateRows, List.map_cons] at *
    by_cases hk : k = id
    · subst hk
      rw [if_pos rfl, h v (List.mem_cons_self _ _)]
      exact congrArg _ (ih fun m hm => h m (List.mem_cons_of_mem _ hm))
    · rw [if_neg hk]
      exact congrArg _ (ih fun m hm => h m (List.mem_cons_of_mem _ hm))

theorem map_eq_self_of {α : Type} (l : List α) (g : α → α)
    (h : ∀ x ∈ l, g x = x) : l.map g = l := by
  induction l with
  | nil => rfl
  | cons a t ih =>
    rw [List.map_cons, h a (by simp), ih fun x hx => h x (List.mem_cons_of_mem _ hx)]

theorem fetchNote_nofault (db : DB) (id : String) :
    fetchNote db nofault id = findNote db id := rfl

theorem generateShareLink_nofault_snd (db : DB) (noteId token origin : String) :
    (generateShareLink db nofault noteId token origin).2
      = updateRows db noteId (fun n => { n with sharing_token := some token }) := rfl

theorem validateShareToken_of_found (db : DB) (noteId token : String) (n : Note)
    (h : findNote db noteId = some n) :
    validateShareToken db nofault noteId token
      = decide (n.sharing_token = some token) := by
  unfold validateShareToken
  rw [fetchNote_nofault, h]

theorem validateShareToken_of_missing (db : DB) (noteId token : String)
    (h : findNote db noteId = none) :
    validateShareToken db nofault noteId token = false := by
  unfold validateShareToken
  rw [fetchNote_nofault, h]

theorem writeCollaborators_nofault (db : DB) (id : String) (l : List Collaborator) :
    writeCollaborators db nofault id l
      = some (updateRows db id (fun n => { n with collaborators := .stored l })) := rfl

theorem writeCollaborators_fail (db : DB) (f : Faults) (id : String)
    (l : List Collaborator) (h : f.writeFail = true) :
    writeCollaborators db f id l = none := by
  simp [writeCollaborators, h]

theorem fetchNote_fail (db : DB) (f : Faults) (id : String)
    (h : f.fetchFail = true) : fetchNote db f id = none := by
  simp [fetchNote, h]

theorem inviteCollaborator_of_fetchNone (db : DB) (f : Faults)
    (noteId : String) (u : InviteInput) (now : String)
    (h : fetchNote db f noteId = none) :
    inviteCollaborator db f noteId u now = (false, db) := by
  unfold inviteCollaborator
  rw [h]

theorem removeCollaborator_of_fetchNone (db : DB) (f : Faults)
    (noteId userId : String) (h : fetchNote db f noteId = none) :
    removeCollaborator db f noteId userId = (false, db) := by
  unfold removeCollaborator
  rw [h]

theorem updateCollaboratorPermission_of_fetchNone (db : DB) (f : Faults)
    (noteId userId : String) (p : Permission)
    (h : fetchNote db f noteId = none) :
    updateCollaboratorPermission db f noteId userId p = (false, db) := by
  unfold updateCollaboratorPermission
  rw [h]

theorem validateShareToken_of_fetchNone (db : DB) (f : Faults)
    (noteId token : String) (h : fetchNote db f noteId = none) :
    validateShareToken db f noteId token = false := by
  unfold validateShareToken
  rw [h]

theorem inviteCollaborator_of_parseError (db : DB) (f : Faults)
    (noteId : String) (u : InviteInput) (now : String) (n : Note)
    (hn : fetchNote db f noteId = some n)
    (hm : parseField n.collaborators = .error ()) :
    inviteCollaborator db f noteId u now = (false, db) := by
  unfold inviteCollaborator
  simp only [hn, hm]

theorem removeCollaborator_of_parseError (db : DB) (f : Faults)
    (noteId userId : String) (n : Note)
    (hn : fetchNote db f noteId = some n)
    (hm : parseField n.collaborators = .error ()) :
    removeCollaborator db f noteId userId = (false, db) := by
  unfold removeCollaborator
  simp only [hn, hm]

theorem updateCollaboratorPermission_of_parseError (db : DB) (f : Faults)
    (noteId userId : String) (p : Permission) (n : Note)
    (hn : fetchNote db f noteId = some n)
    (hm : parseField n.collaborators = .error ()) :
    updateCollaboratorPermission db f noteId userId p = (false, db) := by
  unfold updateCollaboratorPermission
  simp only [hn, hm]

theorem inviteCollaborator_of_parsed (db : DB) (noteId : String)
    (u : InviteInput) (now : String) (n : Note) (l : List Collaborator)
    (hn : findNote db noteId = some n)
    (hp : parseField n.collaborators = .ok l) :
    inviteCollaborator db nofault noteId u now
      = if l.any (fun c =>
            decide (c.user_id = u.user_id) || decide (c.email = u.email)) then
          (false, db)
        else
          (true, updateRows db noteId (fun m =>
            { m with collaborators := .stored (l ++
                [{ user_id := u.user_id, email := u.email,
                   display_name := u.display_name,
                   permission := u.permission, joined_at := now }]) })) := by
  unfold inviteCollaborator
  simp only [fetchNote_nofault, hn, hp, writeCollaborators_nofault]

theorem removeCollaborator_of_parsed (db : DB) (noteId userId : String)
    (n : Note) (l : List Collaborator)
    (hn : findNote db noteId = some n)
    (hp : parseField n.collaborators = .ok l) :
    removeCollaborator db nofault noteId userId
      = (true, updateRows db noteId (fun m =>
          { m with collaborators :=
              .stored (l.filter (fun c => !decide (c.user_id = userId))) })) := by
  unfold removeCollaborator
  simp only [fetchNote_nofault, hn, hp, writeCollaborators_nofault]

theorem updateCollaboratorPermission_of_parsed (db : DB) (noteId userId : String)
    (p : Permission) (n : Note) (l : List Collaborator)
    (hn : findNote db noteId = some n)
    (hp : parseField n.collaborators = .ok l) :
    updateCollaboratorPermission db nofault noteId userId p
      = (true, updateRows db noteId (fun m =>
          { m with collaborators :=
              .stored (l.map (fun c =>
                if c.user_id = userId then { c with permission := p } else c)) })) := by
  unfold updateCollaboratorPermission
  simp only [fetchNote_nofault, hn, hp, writeCollaborators_nofault]

/-! Claim theorems. -/

/-- C8: whenever the write succeeds, the URL returned by
`generateShareLink` is exactly
`<application origin>/share/<note_id>?token=<opaque_token>` for the note
id passed in and the freshly generated token, no error is reported, and
the note (when present) now stores exactly that token. -/
theorem generateShareLink_url_shape (db : DB) (f : Faults)
    (noteId token origin : String) (hw : f.writeFail = false) :
    (generateShareLink db f noteId token origin).1.url
        = some (origin ++ "/share/" ++ noteId ++ "?token=" ++ token)
    ∧ (generateShareLink db f noteId token origin).1.error = false
    ∧ ∀ n : Note, findNote db noteId = some n →
        findNote (generateShareLink db f noteId token origin).2 noteId
          = some { n with sharing_token := some token } := by
  refine ⟨by simp [generateShareLink, hw], by simp [generateShareLink, hw], ?_⟩
  intro n hn
  simp only [generateShareLink, hw, Bool.false_eq_true, if_false]
  rw [findNote_updateRows_self, hn]
  rfl

/-- C8 witness at a concrete store. -/
theorem generateShareLink_url_shape_witness :
    (generateShareLink [("n1", Note.mk "alice" (CollabField.stored []) none)]
        nofault "n1" "tok1" "https://a").1.url
      = some ("https://a" ++ "/share/" ++ "n1" ++ "?token=" ++ "tok1") :=
  (generateShareLink_url_shape
    [("n1", Note.mk "alice" (CollabField.stored []) none)]
    nofault "n1" "tok1" "https://a" rfl).1

/-- C10: for a note id absent from the store, `generateShareLink` still
succeeds and returns the constructed URL embedding the fresh token — the
conditional update matches zero rows without signalling an error — and
`validateShareToken` on the returned pair afterwards returns `false`. -/
theorem generateShareLink_missing_note (db : DB) (noteId token origin : String)
    (hn : findNote db noteId = none) :
    (generateShareLink db nofault noteId token origin).1.url
        = some (origin ++ "/share/" ++ noteId ++ "?token=" ++ token)
    ∧ (generateShareLink db nofault noteId token origin).1.error = false
    ∧ validateShareToken (generateShareLink db nofault noteId token origin).2
        nofault noteId token = false := by
  refine ⟨by simp [generateShareLink, nofault],
          by simp [generateShareLink, nofault], ?_⟩
  have hdb : findNote (generateShareLink db nofault noteId token origin).2 noteId
      = none := by
    rw [generateShareLink_nofault_snd, findNote_updateRows_self, hn]
    rfl
  exact validateShareToken_of_missing _ _ _ hdb

/-- C10 witness at a concrete store missing the note. -/
theorem generateShareLink_missing_note_witness :
    validateShareToken
        (generateShareLink [("n1", Note.mk "alice" (CollabField.stored []) none)]
          nofault "n2" "tok1" "https://a").2 nofault "n2" "tok1" = false :=
  (generateShareLink_missing_note
    [("n1", Note.mk "alice" (CollabField.stored []) none)]
    "n2" "tok1" "https://a" (by decide)).2.2

/-- C2: for a note present in the store, after `generateShareLink`
succeeds returning the URL embedding token T, `validateShareToken` with
T returns `true` and with any other token returns `false`. -/
theorem shareToken_roundtrip (db : DB) (noteId token origin : String) (n : Note)
    (hn : findNote db noteId = some n) :
    (generateShareLink db nofault noteId token origin).1.url
        = some (origin ++ "/share/" ++ noteId ++ "?token=" ++ token)
    ∧ validateShareToken (generateShareLink db nofault noteId token origin).2
        nofault noteId token = true
    ∧ ∀ tok2, tok2 ≠ token →
        validateShareToken (generateShareLink db nofault noteId token origin).2
          nofault noteId tok2 = false := by
  have hdb : findNote (generateShareLink db nofault noteId token origin).2 noteId
      = some { n with sharing_token := some token } := by
    rw [generateShareLink_nofault_snd, findNote_updateRows_self, hn]
    rfl
  refine ⟨by simp [generateShareLink, nofault], ?_, ?_⟩
  · rw [validateShareToken_of_found _ _ _ _ hdb]
    simp
  · intro tok2 hne
    rw [validateShareToken_of_found _ _ _ _ hdb]
    simp [Ne.symm hne]

/-- C2 witness at a concrete store. -/
theorem shareToken_roundtrip_witness :
    validateShareToken
        (generateShareLink [("n1", Note.mk "alice" (CollabField.stored []) none)]
          nofault "n1" "tok1" "https://a").2 nofault "n1" "tok1" = true
    ∧ validateShareToken
        (generateShareLink [("n1", Note.mk "alice" (CollabField.stored []) none)]
          nofault "n1" "tok1" "https://a").2 nofault "n1" "tok2" = false :=
  ⟨(shareToken_roundtrip [("n1", Note.mk "alice" (CollabField.stored []) none)]
      "n1" "tok1" "https://a" (Note.mk "alice" (CollabField.stored []) none)
      (by decide)).2.1,
   (shareToken_roundtrip [("n1", Note.mk "alice" (CollabField.stored []) none)]
      "n1" "tok1" "https://a" (Note.mk "alice" (CollabField.stored []) none)
      (by decide)).2.2 "tok2" (by decide)⟩

/-- C3: generating a share link twice for a present note overwrites the
stored token: afterwards the first token no longer validates and the
second one does. -/
theorem shareToken_rotation (db : DB) (noteId t1 t2 origin : String) (n : Note)
    (hn : findNote db noteId = some n) (hne : t2 ≠ t1) :
    validateShareToken
        (generateShareLink (generateShareLink db nofault noteId t1 origin).2
          nofault noteId t2 origin).2 nofault noteId t1 = false
    ∧ validateShareToken
        (generateShareLink (generateShareLink db nofault noteId t1 origin).2
          nofault noteId t2 origin).2 nofault noteId t2 = true := by
  have hdb : findNote
      (generateShareLink (generateShareLink db nofault noteId t1 origin).2
        nofault noteId t2 origin).2 noteId
      = some { n with sharing_token := some t2 } := by
    rw [generateShareLink_nofault_snd, findNote_updateRows_self,
        generateShareLink_nofault_snd, findNote_updateRows_self, hn]
    rfl
  constructor
  · rw [validateShareToken_of_found _ _ _ _ hdb]
    simp [hne]
  · rw [validateShareToken_of_found _ _ _ _ hdb]
    simp

/-- C3 witness at a concrete store. -/
theorem shareToken_rotation_witness :
    validateShareToken
        (generateShareLink
          (generateShareLink [("n1", Note.mk "alice" (CollabField.stored []) none)]
            nofault "n1" "tok1" "https://a").2
          nofault "n1" "tok2" "https://a").2 nofault "n1" "tok1" = false :=
  (shareToken_rotation [("n1", Note.mk "alice" (CollabField.stored []) none)]
    "n1" "tok1" "tok2" "https://a" (Note.mk "alice" (CollabField.stored []) none)
    (by decide) (by decide)).1

/-- C4: the entry-delete row-level-security policy permits deleting an
entry exactly when the caller is the `user_id` owner of the parent note;
in particular a collaborator with `edit` permission who is not the owner
is denied. -/
theorem entryDelete_owner_only (db : DB) (noteId caller : String) :
    (entryDeleteAllowed db noteId caller = true ↔
      ∃ n : Note, findNote db noteId = some n ∧ n.user_id = caller)
    ∧ ∀ n : Note, findNote db noteId = some n →
        hasEditCollaborator n caller = true → n.user_id ≠ caller →
        entryDeleteAllowed db noteId caller = false := by
  constructor
  · cases hf : findNote db noteId with
    | none => simp [entryDeleteAllowed, hf]
    | some n => simp [entryDeleteAllowed, hf]
  · intro n hf he hne
    simp [entryDeleteAllowed, hf, hne]

/-- C4 witness: an `edit` collaborator who is not the owner is denied
entry deletion at a concrete store. -/
theorem entryDelete_owner_only_witness :
    entryDeleteAllowed
      [("n1", Note.mk "alice"
        (CollabField.stored
          [Collaborator.mk "bob" (some "bob@x.com") none Permission.edit "t0"])
        none)] "n1" "bob" = false :=
  (entryDelete_owner_only
    [("n1", Note.mk "alice"
      (CollabField.stored
        [Collaborator.mk "bob" (some "bob@x.com") none Permission.edit "t0"])
      none)] "n1" "bob").2
    (Note.mk "alice"
      (CollabField.stored
        [Collaborator.mk "bob" (some "bob@x.com") none Permission.edit "t0"])
      none)
    (by decide) (by decide) (by decide)

/-- C9: when some existing collaborator entry of a present note has no
email and the invited collaborator also has no email, the invite is
refused and the store is unchanged, even when the user ids differ: the
duplicate check compares the optional emails with plain equality and an
absent email equals an absent email. -/
theorem inviteCollaborator_absent_email_refused (db : DB) (noteId now : String)
    (u : InviteInput) (n : Note) (l : List Collaborator) (c : Collaborator)
    (hn : findNote db noteId = some n)
    (hl : n.collaborators = CollabField.stored l)
    (hc : c ∈ l) (hce : c.email = none) (hue : u.email = none) :
    inviteCollaborator db nofault noteId u now = (false, db) := by
  have hp : parseField n.collaborators = .ok l := by rw [hl]; rfl
  rw [inviteCollaborator_of_parsed db noteId u now n l hn hp]
  have hdup : (l.any (fun c =>
      decide (c.user_id = u.user_id) || decide (c.email = u.email))) = true :=
    List.any_eq_true.mpr ⟨c, hc, by simp [hce, hue]⟩
  rw [if_pos hdup]

/-- C9 witness: a note whose only collaborator has no email refuses an
email-less invite with a fresh user id. -/
theorem inviteCollaborator_absent_email_refused_witness :
    inviteCollaborator
      [("n1", Note.mk "alice"
        (CollabField.stored [Collaborator.mk "bob" none none Permission.view "t0"])
        none)] nofault "n1" (InviteInput.mk "carol" none none Permission.view) "t1"
      = (false,
        [("n1", Note.mk "alice"
          (CollabField.stored [Collaborator.mk "bob" none none Permission.view "t0"])
          none)]) :=
  inviteCollaborator_absent_email_refused
    [("n1", Note.mk "alice"
      (CollabField.stored [Collaborator.mk "bob" none none Permission.view "t0"])
      none)] "n1" "t1" (InviteInput.mk "carol" none none Permission.view)
    (Note.mk "alice"
      (CollabField.stored [Collaborator.mk "bob" none none Permission.view "t0"])
      none)
    [Collaborator.mk "bob" none none Permission.view "t0"]
    (Collaborator.mk "bob" none none Permission.view "t0")
    (by decide) (by decide) (by decide) (by decide) (by decide)

/-- C5: removing a user id that occurs in no entry of a present note's
stored collaborator list succeeds and leaves the store — in particular
the note's serialized collaborator list — unchanged. -/
theorem removeCollaborator_absent_noop (db : DB) (noteId userId : String)
    (n : Note) (l : List Collaborator)
    (hnd : (db.map Prod.fst).Nodup)
    (hn : findNote db noteId = some n)
    (hl : n.collaborators = CollabField.stored l)
    (habs : ∀ c ∈ l, c.user_id ≠ userId) :
    removeCollaborator db nofault noteId userId = (true, db) := by
  have hp : parseField n.collaborators = .ok l := by rw [hl]; rfl
  rw [removeCollaborator_of_parsed db noteId userId n l hn hp]
  have hfilter : l.filter (fun c => !decide (c.user_id = userId)) = l :=
    List.filter_eq_self.mpr fun c hc => by simp [habs c hc]
  rw [hfilter]
  have hid : updateRows db noteId
      (fun m => { m with collaborators := CollabField.stored l }) = db := by
    apply updateRows_eq_self
    intro m hm
    have hmn := mem_eq_of_findNote db noteId n m hnd hn hm
    rw [hmn, ← hl]
  rw [hid]

/-- C5 witness: removing an absent user id from a concrete store. -/
theorem removeCollaborator_absent_noop_witness :
    removeCollaborator
      [("n1", Note.mk "alice"
        (CollabField.stored
          [Collaborator.mk "bob" (some "bob@x.com") none Permission.view "t0"])
        none)] nofault "n1" "carol"
      = (true,
        [("n1", Note.mk "alice"
          (CollabField.stored
            [Collaborator.mk "bob" (some "bob@x.com") none Permission.view "t0"])
          none)]) :=
  removeCollaborator_absent_noop
    [("n1", Note.mk "alice"
      (CollabField.stored
        [Collaborator.mk "bob" (some "bob@x.com") none Permission.view "t0"])
      none)] "n1" "carol"
    (Note.mk "alice"
      (CollabField.stored
        [Collaborator.mk "bob" (some "bob@x.com") none Permission.view "t0"])
      none)
    [Collaborator.mk "bob" (some "bob@x.com") none Permission.view "t0"]
    (by decide) (by decide) (by decide) (by decide)

/-- C6: for a present note with stored list `l`, `updatePermission`
succeeds; when no entry carries the target user id the store is
unchanged, and when exactly one entry carries it only that entry's
`permission` field changes — its other fields, all other entries, the
ordering of the list, and every other note are preserved. -/
theorem updateCollaboratorPermission_frame (db : DB) (noteId userId : String)
    (p : Permission) (n : Note) (l : List Collaborator)
    (hnd : (db.map Prod.fst).Nodup)
    (hn : findNote db noteId = some n)
    (hl : n.collaborators = CollabField.stored l) :
    ((∀ c ∈ l, c.user_id ≠ userId) →
      updateCollaboratorPermission db nofault noteId userId p = (true, db))
    ∧ ∀ l1 c l2, l = l1 ++ c :: l2 → c.user_id = userId →
        (∀ x ∈ l1, x.user_id ≠ userId) → (∀ x ∈ l2, x.user_id ≠ userId) →
        (updateCollaboratorPermission db nofault noteId userId p).1 = true
        ∧ findNote (updateCollaboratorPermission db nofault noteId userId p).2
              noteId
            = some { n with collaborators :=
                CollabField.stored (l1 ++ { c with permission := p } :: l2) }
        ∧ ∀ i, i ≠ noteId →
            findNote (updateCollaboratorPermission db nofault noteId userId p).2 i
              = findNote db i := by
  have hp : parseField n.collaborators = .ok l := by rw [hl]; rfl
  have hchar := updateCollaboratorPermission_of_parsed db noteId userId p n l hn hp
  constructor
  · intro habs
    rw [hchar]
    have hmap : l.map (fun c =>
        if c.user_id = userId then { c with permission := p } else c) = l :=
      map_eq_self_of l _ fun c hc => if_neg (habs c hc)
    rw [hmap]
    have hid : updateRows db noteId
        (fun m => { m with collaborators := CollabField.stored l }) = db := by
      apply updateRows_eq_self
      intro m hm
      have hmn := mem_eq_of_findNote db noteId n m hnd hn hm
      rw [hmn, ← hl]
    rw [hid]
  · intro l1 c l2 hsplit hcid h1 h2
    have hmap : l.map (fun x =>
        if x.user_id = userId then { x with permission := p } else x)
        = l1 ++ { c with permission := p } :: l2 := by
      rw [hsplit, List.map_append, List.map_cons]
      rw [map_eq_self_of l1 _ fun x hx => if_neg (h1 x hx)]
      rw [map_eq_self_of l2 _ fun x hx => if_neg (h2 x hx)]
      rw [if_pos hcid]
    rw [hchar, hmap]
    refine ⟨rfl, ?_, ?_⟩
    · rw [findNote_updateRows_self, hn]
      rfl
    · intro i hi
      exact findNote_updateRows_ne db noteId i
        (fun m => { m with collaborators :=
          CollabField.stored (l1 ++ { c with permission := p } :: l2) }) hi

/-- C6 witness: updating bob's permission to `edit` in a two-entry list
changes only bob's `permission` field and leaves carol's entry and the
ordering intact; updating an absent user id changes nothing. -/
theorem updateCollaboratorPermission_frame_witness :
    updateCollaboratorPermission
        [("n1", Note.mk "alice"
          (CollabField.stored
            [Collaborator.mk "bob" (some "bob@x.com") none Permission.view "t0",
             Collaborator.mk "carol" (some "c@x.com") (some "Carol")
               Permission.view "t1"]) none)]
        nofault "n1" "dave" Permission.edit
      = (true,
        [("n1", Note.mk "alice"
          (CollabField.stored
            [Collaborator.mk "bob" (some "bob@x.com") none Permission.view "t0",
             Collaborator.mk "carol" (some "c@x.com") (some "Carol")
               Permission.view "t1"]) none)])
    ∧ findNote
        (updateCollaboratorPermission
          [("n1", Note.mk "alice"
            (CollabField.stored
              [Collaborator.mk "bob" (some "bob@x.com") none Permission.view "t0",
               Collaborator.mk "carol" (some "c@x.com") (some "Carol")
                 Permission.view "t1"]) none)]
          nofault "n1" "bob" Permission.edit).2 "n1"
      = some (Note.mk "alice"
          (CollabField.stored
            [Collaborator.mk "bob" (some "bob@x.com") none Permission.edit "t0",
             Collaborator.mk "carol" (some "c@x.com") (some "Carol")
               Permission.view "t1"]) none) :=
  ⟨(updateCollaboratorPermission_frame
      [("n1", Note.mk "alice"
        (CollabField.stored
          [Collaborator.mk "bob" (some "bob@x.com") none Permission.view "t0",
           Collaborator.mk "carol" (some "c@x.com") (some "Carol")
             Permission.view "t1"]) none)]
      "n1" "dave" Permission.edit
      (Note.mk "alice"
        (CollabField.stored
          [Collaborator.mk "bob" (some "bob@x.com") none Permission.view "t0",
           Collaborator.mk "carol" (some "c@x.com") (some "Carol")
             Permission.view "t1"]) none)
      [Collaborator.mk "bob" (some "bob@x.com") none Permission.view "t0",
       Collaborator.mk "carol" (some "c@x.com") (some "Carol")
         Permission.view "t1"]
      (by decide) (by decide) (by decide)).1 (by decide),
   ((updateCollaboratorPermission_frame
      [("n1", Note.mk "alice"
        (CollabField.stored
          [Collaborator.mk "bob" (some "bob@x.com") none Permission.view "t0",
           Collaborator.mk "carol" (some "c@x.com") (some "Carol")
             Permission.view "t1"]) none)]
      "n1" "bob" Permission.edit
      (Note.mk "alice"
        (CollabField.stored
          [Collaborator.mk "bob" (some "bob@x.com") none Permission.view "t0",
           Collaborator.mk "carol" (some "c@x.com") (some "Carol")
             Permission.view "t1"]) none)
      [Collaborator.mk "bob" (some "bob@x.com") none Permission.view "t0",
       Collaborator.mk "carol" (some "c@x.com") (some "Carol")
         Permission.view "t1"]
      (by decide) (by decide) (by decide)).2
      []
      (Collaborator.mk "bob" (some "bob@x.com") none Permission.view "t0")
      [Collaborator.mk "carol" (some "c@x.com") (some "Carol")
        Permission.view "t1"]
      (by decide) (by decide) (by decide) (by decide)).2.1⟩

theorem inviteCollaborator_writeFail_fst (db : DB) (f : Faults)
    (noteId : String) (u : InviteInput) (now : String)
    (hw : f.writeFail = true) :
    (inviteCollaborator db f noteId u now).1 = false := by
  cases hfn : fetchNote db f noteId with
  | none =>
    unfold inviteCollaborator
    simp [hfn]
  | some n =>
    cases hp : parseField n.collaborators with
    | error e =>
      unfold inviteCollaborator
      simp [hfn, hp]
    | ok l =>
      unfold inviteCollaborator
      simp [hfn, hp, writeCollaborators_fail db f noteId, hw]

theorem removeCollaborator_writeFail_fst (db : DB) (f : Faults)
    (noteId userId : String) (hw : f.writeFail = true) :
    (removeCollaborator db f noteId userId).1 = false := by
  cases hfn : fetchNote db f noteId with
  | none =>
    unfold removeCollaborator
    simp [hfn]
  | some n =>
    cases hp : parseField n.collaborators with
    | error e =>
      unfold removeCollaborator
      simp [hfn, hp]
    | ok l =>
      unfold removeCollaborator
      simp [hfn, hp, writeCollaborators_fail db f noteId, hw]

theorem updateCollaboratorPermission_writeFail_fst (db : DB) (f : Faults)
    (noteId userId : String) (p : Permission) (hw : f.writeFail = true) :
    (updateCollaboratorPermission db f noteId userId p).1 = false := by
  cases hfn : fetchNote db f noteId with
  | none =>
    unfold updateCollaboratorPermission
    simp [hfn]
  | some n =>
    cases hp : parseField n.collaborators with
    | error e =>
      unfold updateCollaboratorPermission
      simp [hfn, hp]
    | ok l =>
      unfold updateCollaboratorPermission
      simp [hfn, hp, writeCollaborators_fail db f noteId, hw]

/-- C7: the registry operations never let an underlying storage failure
escape: under a failing fetch, a missing note, malformed stored
collaborator data, or a failing write, each operation returns its plain
failure value (`false`, or a null URL with an error) instead of raising. -/
theorem registry_failures_return_failure (db : DB) (f : Faults)
    (noteId userId token now origin : String) (u : InviteInput)
    (p : Permission) :
    (f.fetchFail = true →
      inviteCollaborator db f noteId u now = (false, db)
      ∧ removeCollaborator db f noteId userId = (false, db)
      ∧ updateCollaboratorPermission db f noteId userId p = (false, db)
      ∧ validateShareToken db f noteId token = false)
    ∧ (findNote db noteId = none →
      inviteCollaborator db f noteId u now = (false, db)
      ∧ removeCollaborator db f noteId userId = (false, db)
      ∧ updateCollaboratorPermission db f noteId userId p = (false, db)
      ∧ validateShareToken db f noteId token = false)
    ∧ (∀ n : Note, findNote db noteId = some n →
        n.collaborators = CollabField.malformed →
      inviteCollaborator db f noteId u now = (false, db)
      ∧ removeCollaborator db f noteId userId = (false, db)
      ∧ updateCollaboratorPermission db f noteId userId p = (false, db))
    ∧ (f.writeFail = true →
      (inviteCollaborator db f noteId u now).1 = false
      ∧ (removeCollaborator db f noteId userId).1 = false
      ∧ (updateCollaboratorPermission db f noteId userId p).1 = false
      ∧ (generateShareLink db f noteId token origin).1.url = none
      ∧ (generateShareLink db f noteId token origin).1.error = true
      ∧ (generateShareLink db f noteId token origin).2 = db) := by
  refine ⟨?_, ?_, ?_, ?_⟩
  · intro hf
    have h0 : fetchNote db f noteId = none := fetchNote_fail db f noteId hf
    exact ⟨inviteCollaborator_of_fetchNone db f noteId u now h0,
           removeCollaborator_of_fetchNone db f noteId userId h0,
           updateCollaboratorPermission_of_fetchNone db f noteId userId p h0,
           validateShareToken_of_fetchNone db f noteId token h0⟩
  · intro hn
    have h0 : fetchNote db f noteId = none := by simp [fetchNote, hn]
    exact ⟨inviteCollaborator_of_fetchNone db f noteId u now h0,
           removeCollaborator_of_fetchNone db f noteId userId h0,
           updateCollaboratorPermission_of_fetchNone db f noteId userId p h0,
           validateShareToken_of_fetchNone db f noteId token h0⟩
  · intro n hn hm
    cases hb : f.fetchFail with
    | true =>
      have h0 : fetchNote db f noteId = none := fetchNote_fail db f noteId hb
      exact ⟨inviteCollaborator_of_fetchNone db f noteId u now h0,
             removeCollaborator_of_fetchNone db f noteId userId h0,
             updateCollaboratorPermission_of_fetchNone db f noteId userId p h0⟩
    | false =>
      have h0 : fetchNote db f noteId = some n := by simp [fetchNote, hb, hn]
      have hpe : parseField n.collaborators = .error () := by rw [hm]; rfl
      exact ⟨inviteCollaborator_of_parseError db f noteId u now n h0 hpe,
             removeCollaborator_of_parseError db f noteId userId n h0 hpe,
             updateCollaboratorPermission_of_parseError db f noteId userId p n
               h0 hpe⟩
  · intro hw
    refine ⟨inviteCollaborator_writeFail_fst db f noteId u now hw,
            removeCollaborator_writeFail_fst db f noteId userId hw,
            updateCollaboratorPermission_writeFail_fst db f noteId userId p hw,
            ?_, ?_, ?_⟩ <;> simp [generateShareLink, hw]

/-- C7 witness: a failing fetch makes invite return the failure pair
and a failing write makes generateShareLink return a null URL. -/
theorem registry_failures_return_failure_witness :
    inviteCollaborator [("n1", Note.mk "alice" (CollabField.stored []) none)]
        (Faults.mk true false) "n1"
        (InviteInput.mk "bob" none none Permission.view) "t0"
      = (false, [("n1", Note.mk "alice" (CollabField.stored []) none)])
    ∧ (generateShareLink [("n1", Note.mk "alice" (CollabField.stored []) none)]
        (Faults.mk false true) "n1" "tok" "https://a").1.url = none :=
  ⟨((registry_failures_return_failure
      [("n1", Note.mk "alice" (CollabField.stored []) none)]
      (Faults.mk true false) "n1" "bob" "tok" "t0" "https://a"
      (InviteInput.mk "bob" none none Permission.view) Permission.view).1
      rfl).1,
   ((registry_failures_return_failure
      [("n1", Note.mk "alice" (CollabField.stored []) none)]
      (Faults.mk false true) "n1" "bob" "tok" "t0" "https://a"
      (InviteInput.mk "bob" none none Permission.view) Permission.view).2.2.2
      rfl).2.2.2.1⟩

/-- C1: after an invite of `u` into a note has succeeded, a second
invite of any `u2` whose `user_id` equals `u`'s or whose `email` equals
`u`'s returns the failure value and leaves the store — in particular the
note's collaborator list — exactly as it was after the first invite. -/
theorem inviteCollaborator_duplicate (db db1 : DB) (noteId now now2 : String)
    (u u2 : InviteInput)
    (h1 : inviteCollaborator db nofault noteId u now = (true, db1))
    (hdup : u2.user_id = u.user_id ∨ u2.email = u.email) :
    inviteCollaborator db1 nofault noteId u2 now2 = (false, db1) := by
  cases hf : findNote db noteId with
  | none =>
    rw [inviteCollaborator_of_fetchNone db nofault noteId u now
      (by rw [fetchNote_nofault, hf])] at h1
    simp at h1
  | some n =>
    cases hp : parseField n.collaborators with
    | error e =>
      rw [inviteCollaborator_of_parseError db nofault noteId u now n
        (by rw [fetchNote_nofault, hf]) (by rw [hp])] at h1
      simp at h1
    | ok l =>
      rw [inviteCollaborator_of_parsed db noteId u now n l hf hp] at h1
      by_cases hex : (l.any fun c =>
          decide (c.user_id = u.user_id) || decide (c.email = u.email)) = true
      · rw [if_pos hex] at h1
        simp at h1
      · rw [if_neg hex] at h1
        injection h1 with hb hdb1
        have hf1 : findNote db1 noteId
            = some { n with collaborators := CollabField.stored (l ++
                [{ user_id := u.user_id, email := u.email,
                   display_name := u.display_name,
                   permission := u.permission, joined_at := now }]) } := by
          rw [← hdb1, findNote_updateRows_self, hf]
          rfl
        rw [inviteCollaborator_of_parsed db1 noteId u2 now2 _ _ hf1 rfl]
        have hdup2 : ((l ++
            ([{ user_id := u.user_id, email := u.email,
                display_name := u.display_name,
                permission := u.permission,
                joined_at := now }] : List Collaborator)).any fun c =>
            decide (c.user_id = u2.user_id) || decide (c.email = u2.email))
            = true := by
          apply List.any_eq_true.mpr
          refine ⟨({ user_id := u.user_id, email := u.email,
                     display_name := u.display_name,
                     permission := u.permission,
                     joined_at := now } : Collaborator),
                  by simp, ?_⟩
          rcases hdup with h | h
          · simp [h]
          · simp [h]
        rw [if_pos hdup2]

/-- C1 witness: after inviting bob, inviting a different entry with
bob's email is refused and the store is unchanged. -/
theorem inviteCollaborator_duplicate_witness :
    inviteCollaborator
        [("n1", Note.mk "alice"
          (CollabField.stored
            [Collaborator.mk "bob" (some "bob@x.com") none Permission.view "t0"])
          none)]
        nofault "n1" (InviteInput.mk "bob2" (some "bob@x.com") none Permission.edit)
        "t1"
      = (false,
        [("n1", Note.mk "alice"
          (CollabField.stored
            [Collaborator.mk "bob" (some "bob@x.com") none Permission.view "t0"])
          none)]) :=
  inviteCollaborator_duplicate
    [("n1", Note.mk "alice" (CollabField.stored []) none)]
    [("n1", Note.mk "alice"
      (CollabField.stored
        [Collaborator.mk "bob" (some "bob@x.com") none Permission.view "t0"])
      none)]
    "n1" "t0" "t1"
    (InviteInput.mk "bob" (some "bob@x.com") none Permission.view)
    (InviteInput.mk "bob2" (some "bob@x.com") none Permission.edit)
    (by decide) (Or.inr (by decide))

end Collab
